import Mathlib

/-
Verification of the KeySocket deployment pipeline runner.

The runner (deploy.py) executes a fixed, ordered list of steps. Each step
wraps one external command. A step invoked with check=True is Blocking:
a non-zero exit raises CalledProcessError, caught by the single handler at
the bottom of the script. A step invoked with check=False is Advisory:
its exit code is discarded and execution continues.

We embed the scripts as data: a Step records its name, its command (either
an argument list or a single shell-interpreted string, matching how the
Python source invokes it), whether it is Blocking, the messages printed
before and after the invocation, and the sleep that follows it. The runner
is a fold over the step list, parameterised by an environment assigning an
exit code to each step name.
-/

namespace KeySocket

/-- Command, as the Python source passes it to subprocess: either a list of
argument tokens, or a single string handed to a shell interpreter
with shell=True. -/
inductive Command where
  | argv (tokens : List String)
  | shellStr (raw : String)
  deriving DecidableEq

/-- Whether the command is an argument-token list. -/
def Command.isArgv : Command → Bool
  | .argv _ => true
  | .shellStr _ => false

/-- Rendering of a command for the failure report. -/
def Command.render : Command → String
  | .argv ts => String.intercalate " " ts
  | .shellStr s => s

/-- One pipeline step: name, external command, criticality (blocking equals
check=True in the source), messages printed before the invocation, messages
printed after it, and the sleep in seconds that follows. -/
structure Step where
  name : String
  command : Command
  blocking : Bool
  preLogs : List String
  okLogs : List String
  postDelay : Nat
  deriving DecidableEq

/-- Terminal value of one pipeline run. -/
inductive PipelineOutcome where
  | Success
  | FailedAt (step : String) (code : Nat)
  deriving DecidableEq

/-- Trace of one pipeline run: its outcome, the messages the runner printed,
and the names of the steps whose external command was actually invoked,
in order. -/
structure RunTrace where
  outcome : PipelineOutcome
  logs : List String
  executed : List String
  deriving DecidableEq

/-- The messages printed by the except CalledProcessError handler in
deploy.py, including the failing command. -/
def failureReport (c : Command) : List String :=
  ["!!!!!!!!!!!!!!!!!!!!!!!!!!!!!!!!!!!!!!!!!!!!!!!!",
   "ERROR: One of the commands failed. Deployment stopped.",
   "Command failed: " ++ c.render,
   "Check the logs above to see which step failed.",
   "!!!!!!!!!!!!!!!!!!!!!!!!!!!!!!!!!!!!!!!!!!!!!!!!"]

/-- The runner: execute steps strictly in order. A Blocking step with a
non-zero exit code raises, reaching the handler: its failure report is
printed and nothing after it runs. Any other step prints its after-messages
and execution continues, whatever its exit code. -/
def runSteps (env : String → Nat) : List Step → RunTrace
  | [] => ⟨.Success, [], []⟩
  | s :: rest =>
    if s.blocking = true ∧ env s.name ≠ 0 then
      ⟨.FailedAt s.name (env s.name), s.preLogs ++ failureReport s.command, [s.name]⟩
    else
      let t := runSteps env rest
      ⟨t.outcome, s.preLogs ++ s.okLogs ++ t.logs, s.name :: t.executed⟩

/-- Messages printed after the last step on full success. -/
def doneLogs : List String :=
  ["Update and reload complete!", "Deployment script finished successfully."]

/-- A full run of the try block: the steps, then the completion messages
when every Blocking step succeeded. -/
def runDeploy (env : String → Nat) (steps : List Step) : RunTrace :=
  let t := runSteps env steps
  match t.outcome with
  | .Success => ⟨.Success, t.logs ++ doneLogs, t.executed⟩
  | o => ⟨o, t.logs, t.executed⟩

/-- Configured application port (deploy.py line: PORT = 3000). -/
def PORT : Nat := 3000

/-- Configured pm2 application name (deploy.py: APP_NAME). -/
def APP_NAME : String := "keysocket"

/-- Step 1 of deploy.py: git fetch --all (check=True). -/
def step_fetch (branch : String) : Step :=
  ⟨"fetch", .argv ["git", "fetch", "--all"], true,
    ["You are currently on branch \"" ++ branch ++ "\"",
     "Fetching/Pulling latest changes from " ++ branch ++ "..."],
    ["Fetched latest changes."], 0⟩

/-- Step 2 of deploy.py: git pull (check=True). -/
def step_pull : Step :=
  ⟨"pull", .argv ["git", "pull"], true, [], ["Pulled latest changes."], 1⟩

/-- Step 3 of deploy.py: npm install (check=True). -/
def step_install : Step :=
  ⟨"install", .argv ["npm", "install"], true,
    ["Installing backend dependencies..."],
    ["Installed backend dependencies."], 1⟩

/-- Step 4 of deploy.py: npm audit (check=False); the result object is
discarded and the runner prints a fixed completion message
unconditionally. -/
def step_audit : Step :=
  ⟨"audit", .argv ["npm", "audit"], false,
    ["Auditing dependencies..."], ["Audit check complete."], 1⟩

/-- Step 5 of deploy.py: pm2 startOrReload with the ecosystem file
(check=True). -/
def step_reload_app : Step :=
  ⟨"reload_app",
    .argv ["pm2", "startOrReload", "ecosystem.config.js", "--update-env"],
    true,
    ["Reloading " ++ APP_NAME ++ " through pm2 (ecosystem)..."],
    ["pm2 startOrReload executed."], 0⟩

/-- Step 6 of deploy.py: pm2 save (check=True), followed by the 3 second
settle delay before the health check. -/
def step_save : Step :=
  ⟨"save_snapshot", .argv ["pm2", "save"], true, [],
    ["pm2 process list saved.", "Waiting for backend to stabilize (3s)..."],
    3⟩

/-- Step 7 of deploy.py: curl health check with a bounded retry budget
baked into the probe command itself (check=True). -/
def step_health : Step :=
  ⟨"health_check",
    .argv ["curl", "-f", "-I", "--retry", "3", "--retry-delay", "1",
           "http://localhost:" ++ toString PORT],
    true,
    ["Verifying backend is running on port " ++ toString PORT ++ "..."],
    ["Backend health check passed."], 1⟩

/-- Step 8 of deploy.py: nginx configuration validation (check=True). -/
def step_validate : Step :=
  ⟨"validate_proxy_config", .argv ["sudo", "nginx", "-t"], true,
    ["Verifying nginx configuration..."], ["Nginx configuration valid."], 1⟩

/-- Step 9 of deploy.py: systemctl reload nginx (check=True). -/
def step_reload_proxy : Step :=
  ⟨"reload_proxy", .argv ["sudo", "systemctl", "reload", "nginx"], true,
    ["Reloading nginx..."], ["Nginx reloaded."], 1⟩

/-- Step 10 of deploy.py: systemctl status nginx (check=False). -/
def step_proxy_status : Step :=
  ⟨"proxy_status", .argv ["sudo", "systemctl", "status", "nginx", "--no-pager"],
    false, ["Checking nginx status..."], [], 1⟩

/-- Step 11 of deploy.py: pm2 status (check=False). -/
def step_supervisor_status : Step :=
  ⟨"supervisor_status", .argv ["pm2", "status", APP_NAME], false,
    ["Checking pm2 status for " ++ APP_NAME ++ "..."], [], 1⟩

/-- The deploy.py pipeline, in source order. -/
def deployPipeline (branch : String) : List Step :=
  [step_fetch branch, step_pull, step_install, step_audit, step_reload_app,
   step_save, step_health, step_validate, step_reload_proxy,
   step_proxy_status, step_supervisor_status]

/-- The branch-name lookup command run before the try block of deploy.py
(check=True, capture_output=True). -/
def branchLookupCmd : Command := .argv ["git", "branch", "--show-current"]

/-- Trace of a whole run of deploy.py: the process exit code reported to
the OS, whether the run ended in an uncaught exception, and the pipeline
trace when the try block was entered. -/
structure ProgramTrace where
  exitCode : Nat
  uncaughtException : Bool
  trace : Option RunTrace
  deriving DecidableEq

/-- The whole deploy.py program. The branch lookup runs before the try
block with check=True: a non-zero exit raises CalledProcessError outside
any handler, so the interpreter aborts with exit code 1 before any
pipeline step runs and before anything is printed. Otherwise the pipeline
runs; the except handler at the bottom catches any Blocking failure,
prints its report and falls off the end of the script, so the interpreter
exits 0 either way. -/
def runProgram (env : String → Nat) (branch : String) : ProgramTrace :=
  if env "branch_lookup" ≠ 0 then
    ⟨1, true, none⟩
  else
    ⟨0, false, some (runDeploy env (deployPipeline branch))⟩

/-- The deploy-light.py pipeline, in source order. Every command there is
a single string executed with shell=True. -/
def deployLightPipeline : List Step :=
  [⟨"fetch", .shellStr "git fetch --all", true,
     ["Fetching/Pulling latest changes..."], ["Fetched latest changes."], 0⟩,
   ⟨"pull", .shellStr "git pull", true, [], ["Pulled latest changes."], 0⟩,
   ⟨"reload_app", .shellStr ("pm2 reload " ++ APP_NAME ++ " --update-env"),
     true, ["Reloading " ++ APP_NAME ++ " through pm2..."],
     ["Reload command sent.", "Waiting for backend to stabilize (1s)..."], 1⟩,
   ⟨"reload_proxy", .shellStr "sudo systemctl reload nginx", true,
     ["Reloading nginx..."], ["Nginx reloaded."], 0⟩,
   ⟨"proxy_status", .shellStr "sudo systemctl status nginx --no-pager",
     false, ["Checking nginx status..."], [], 0⟩,
   ⟨"supervisor_status", .shellStr ("pm2 status " ++ APP_NAME), false,
     ["Checking pm2 status for " ++ APP_NAME ++ "..."], [], 0⟩]

/-- The canonical step order as the specification words it: supervisor
status report (step 11) before proxy status report (step 12). The settle
delay of spec step 7 is the pause after the snapshot step. This definition
follows the words of the spec, for comparison with the source-derived
pipeline. -/
def specCanonicalOrder : List String :=
  ["fetch", "pull", "install", "audit", "reload_app", "save_snapshot",
   "health_check", "validate_proxy_config", "reload_proxy",
   "supervisor_status", "proxy_status"]

/-- Environment where every command exits 0. -/
def envZero : String → Nat := fun _ => 0

/-- Environment where npm install exits 2 and everything else exits 0. -/
def envInstallFail : String → Nat :=
  fun n => if n = "install" then 2 else 0

/-- Environment where npm audit exits 1 and everything else exits 0. -/
def envAuditOnlyFail : String → Nat :=
  fun n => if n = "audit" then 1 else 0

/-- Environment where all three Advisory steps exit non-zero and every
Blocking step exits 0. -/
def envAdvisoryFail : String → Nat :=
  fun n =>
    if n = "audit" then 1
    else if n = "proxy_status" then 3
    else if n = "supervisor_status" then 4
    else 0

/-- Environment where nginx configuration validation exits 1 and
everything else exits 0. -/
def envValidateFail : String → Nat :=
  fun n => if n = "validate_proxy_config" then 1 else 0

/-- Environment where the curl health probe exits 7 (all retries
exhausted) and everything else exits 0. -/
def envHealthFail : String → Nat :=
  fun n => if n = "health_check" then 7 else 0

/-- Environment where the nginx reload exits 5 and everything else
exits 0. -/
def envProxyReloadFail : String → Nat :=
  fun n => if n = "reload_proxy" then 5 else 0

/-- Environment where the branch lookup exits 128 and everything else
exits 0. -/
def envBranchFail : String → Nat :=
  fun n => if n = "branch_lookup" then 128 else 0

/-- Log output of a list of steps when all of them complete. -/
def stepLogs : List Step → List String
  | [] => []
  | s :: rest => s.preLogs ++ s.okLogs ++ stepLogs rest

/-- Unfolding equation of the runner on the empty pipeline. -/
theorem runSteps_nil (env : String → Nat) :
    runSteps env [] = ⟨.Success, [], []⟩ := rfl

/-- Unfolding equation of the runner on a non-empty pipeline. -/
theorem runSteps_cons (env : String → Nat) (s : Step) (rest : List Step) :
    runSteps env (s :: rest) =
      if s.blocking = true ∧ env s.name ≠ 0 then
        ⟨.FailedAt s.name (env s.name),
         s.preLogs ++ failureReport s.command, [s.name]⟩
      else
        ⟨(runSteps env rest).outcome,
         s.preLogs ++ s.okLogs ++ (runSteps env rest).logs,
         s.name :: (runSteps env rest).executed⟩ := rfl

/-- A run in which every Blocking step exits 0 executes every step in
order, prints every message, and succeeds, whatever the Advisory steps
exit with. -/
theorem runSteps_success (env : String → Nat) (steps : List Step)
    (h : ∀ s ∈ steps, s.blocking = true → env s.name = 0) :
    runSteps env steps = ⟨.Success, stepLogs steps, steps.map Step.name⟩ := by
  induction steps with
  | nil => rfl
  | cons s rest ih =>
    have hs : ¬ (s.blocking = true ∧ env s.name ≠ 0) := by
      rintro ⟨hb, hc⟩
      exact hc (h s (List.mem_cons_self s rest) hb)
    have hrest : ∀ t ∈ rest, t.blocking = true → env t.name = 0 :=
      fun t ht => h t (List.mem_cons_of_mem s ht)
    rw [runSteps_cons, if_neg hs, ih hrest]
    simp [stepLogs]

/-- A run that reaches a Blocking step whose command exits non-zero stops
at that step: the executed commands are exactly those of the preceding
steps plus the failing one, the outcome names the step and its exit code,
and the log ends with the failure report for the failing command. -/
theorem runSteps_halt (env : String → Nat) (pre : List Step) (s : Step)
    (post : List Step)
    (hpre : ∀ t ∈ pre, t.blocking = true → env t.name = 0)
    (hb : s.blocking = true) (hc : env s.name ≠ 0) :
    runSteps env (pre ++ s :: post) =
      ⟨.FailedAt s.name (env s.name),
       stepLogs pre ++ s.preLogs ++ failureReport s.command,
       pre.map Step.name ++ [s.name]⟩ := by
  induction pre with
  | nil =>
    rw [List.nil_append, runSteps_cons, if_pos (And.intro hb hc)]
    simp [stepLogs]
  | cons t pre ih =>
    have ht : ¬ (t.blocking = true ∧ env t.name ≠ 0) := by
      rintro ⟨htb, htc⟩
      exact htc (hpre t (List.mem_cons_self t pre) htb)
    have hpre2 : ∀ u ∈ pre, u.blocking = true → env u.name = 0 :=
      fun u hu => hpre u (List.mem_cons_of_mem t hu)
    rw [List.cons_append, runSteps_cons, if_neg ht, ih hpre2]
    simp [stepLogs]

/-- The runner invokes a sublist of the pipeline: each step at most once,
and in pipeline order. -/
theorem runSteps_executed_sublist (env : String → Nat) (steps : List Step) :
    List.Sublist (runSteps env steps).executed (steps.map Step.name) := by
  induction steps with
  | nil => exact List.Sublist.refl _
  | cons s rest ih =>
    rw [runSteps_cons]
    by_cases h : s.blocking = true ∧ env s.name ≠ 0
    · rw [if_pos h]
      exact (List.nil_sublist _).cons₂ _
    · rw [if_neg h]
      exact ih.cons₂ _

/-- If a step named outside a leading segment of the pipeline was executed, every
Blocking step of that leading segment exited 0. -/
theorem runSteps_mem_executed (env : String → Nat) (pre post : List Step)
    (n : String) (hn : n ∉ pre.map Step.name)
    (hmem : n ∈ (runSteps env (pre ++ post)).executed) :
    ∀ t ∈ pre, t.blocking = true → env t.name = 0 := by
  induction pre with
  | nil => intro t ht; exact absurd ht (List.not_mem_nil t)
  | cons t pre ih =>
    have hne : n ≠ t.name := by
      intro h
      exact hn (by simp [h])
    have hn2 : n ∉ pre.map Step.name := by
      intro h
      exact hn (by simp [h])
    by_cases h : t.blocking = true ∧ env t.name ≠ 0
    · exfalso
      rw [List.cons_append, runSteps_cons, if_pos h] at hmem
      exact hne (List.mem_singleton.mp hmem)
    · intro u hu hub
      rcases List.mem_cons.mp hu with rfl | hu2
      · by_contra hc
        exact h ⟨hub, hc⟩
      · rw [List.cons_append, runSteps_cons, if_neg h] at hmem
        rcases List.mem_cons.mp hmem with rfl | hmem2
        · exact absurd rfl hne
        · exact ih hn2 hmem2 u hu2 hub

/-- The whole trace of a run is determined by the exit codes of the
Blocking steps alone: Advisory exit codes are never inspected. -/
theorem runSteps_advisory_irrelevant (env env2 : String → Nat)
    (steps : List Step)
    (h : ∀ s ∈ steps, s.blocking = true → env s.name = env2 s.name) :
    runSteps env steps = runSteps env2 steps := by
  induction steps with
  | nil => rfl
  | cons s rest ih =>
    have hrest : ∀ t ∈ rest, t.blocking = true → env t.name = env2 t.name :=
      fun t ht => h t (List.mem_cons_of_mem s ht)
    by_cases hb : s.blocking = true
    · have heq : env s.name = env2 s.name := h s (List.mem_cons_self s rest) hb
      rw [runSteps_cons, runSteps_cons, heq, ih hrest]
    · have h1 : ¬ (s.blocking = true ∧ env s.name ≠ 0) := fun hh => hb hh.1
      have h2 : ¬ (s.blocking = true ∧ env2 s.name ≠ 0) := fun hh => hb hh.1
      rw [runSteps_cons, runSteps_cons, if_neg h1, if_neg h2, ih hrest]

/-- C1: if a Blocking step of the deploy.py pipeline (one invoked with
check=True) exits non-zero, no subsequent step executes: the invoked
steps are exactly the preceding ones plus the failing one, and the
outcome is FailedAt naming that step and its exit code. -/
theorem blocking_failure_halts_pipeline (env : String → Nat) (b : String)
    (pre : List Step) (s : Step) (post : List Step)
    (hdec : deployPipeline b = pre ++ s :: post)
    (hpre : ∀ t ∈ pre, t.blocking = true → env t.name = 0)
    (hb : s.blocking = true) (hc : env s.name ≠ 0) :
    (runSteps env (deployPipeline b)).outcome =
      .FailedAt s.name (env s.name) ∧
    (runSteps env (deployPipeline b)).executed =
      pre.map Step.name ++ [s.name] := by
  rw [hdec, runSteps_halt env pre s post hpre hb hc]
  exact ⟨rfl, rfl⟩

/-- Witness for C1: npm install exits 2; the run stops there with
FailedAt and only fetch, pull and install were invoked. -/
theorem blocking_failure_halts_pipeline_witness :
    (runSteps envInstallFail (deployPipeline "main")).outcome =
      .FailedAt "install" 2 ∧
    (runSteps envInstallFail (deployPipeline "main")).executed =
      ["fetch", "pull", "install"] := by
  have h := blocking_failure_halts_pipeline envInstallFail "main"
    [step_fetch "main", step_pull] step_install
    [step_audit, step_reload_app, step_save, step_health, step_validate,
     step_reload_proxy, step_proxy_status, step_supervisor_status]
    rfl (by decide) rfl (by decide)
  exact ⟨h.1, h.2⟩

/-- C2: the claim says the process exit code is non-zero whenever a
Blocking step fails. The except handler of deploy.py prints its report
and then falls off the end of the script without sys.exit, so the
interpreter exits 0 even though the pipeline outcome is FailedAt: the
exit code is 0 both on full success and on a Blocking failure. -/
theorem process_exit_code_is_zero_even_on_failure :
    (runProgram envZero "main").exitCode = 0 ∧
    (runProgram envInstallFail "main").exitCode = 0 ∧
    ((runProgram envInstallFail "main").trace.map RunTrace.outcome) =
      some (.FailedAt "install" 2) :=
  ⟨rfl, rfl, rfl⟩

/-- C3: an Advisory step (check=False: audit and the two status reports)
never halts the pipeline: whatever those steps exit with, if every
Blocking step exits 0 then every step of the pipeline is invoked and the
outcome is Success. -/
theorem advisory_failure_never_halts (env : String → Nat) (b : String)
    (h_fetch : env "fetch" = 0) (h_pull : env "pull" = 0)
    (h_install : env "install" = 0) (h_reload : env "reload_app" = 0)
    (h_save : env "save_snapshot" = 0) (h_health : env "health_check" = 0)
    (h_validate : env "validate_proxy_config" = 0)
    (h_proxy : env "reload_proxy" = 0) :
    (runSteps env (deployPipeline b)).outcome = .Success ∧
    (runSteps env (deployPipeline b)).executed =
      ["fetch", "pull", "install", "audit", "reload_app", "save_snapshot",
       "health_check", "validate_proxy_config", "reload_proxy",
       "proxy_status", "supervisor_status"] := by
  have h : ∀ s ∈ deployPipeline b, s.blocking = true → env s.name = 0 := by
    intro s hs
    simp only [deployPipeline, List.mem_cons, List.not_mem_nil, or_false]
      at hs
    rcases hs with rfl | rfl | rfl | rfl | rfl | rfl | rfl | rfl | rfl
      | rfl | rfl
    · exact fun _ => h_fetch
    · exact fun _ => h_pull
    · exact fun _ => h_install
    · exact fun hb => Bool.noConfusion hb
    · exact fun _ => h_reload
    · exact fun _ => h_save
    · exact fun _ => h_health
    · exact fun _ => h_validate
    · exact fun _ => h_proxy
    · exact fun hb => Bool.noConfusion hb
    · exact fun hb => Bool.noConfusion hb
  rw [runSteps_success env _ h]
  exact ⟨rfl, rfl⟩

/-- Witness for C3: audit exits 1 and both status reports exit non-zero,
every Blocking step exits 0: the run is a Success and every step ran. -/
theorem advisory_failure_never_halts_witness :
    (runSteps envAdvisoryFail (deployPipeline "main")).outcome =
      .Success ∧
    (runSteps envAdvisoryFail (deployPipeline "main")).executed =
      ["fetch", "pull", "install", "audit", "reload_app", "save_snapshot",
       "health_check", "validate_proxy_config", "reload_proxy",
       "proxy_status", "supervisor_status"] :=
  advisory_failure_never_halts envAdvisoryFail "main"
    rfl rfl rfl rfl rfl rfl rfl rfl

/-- C4 counterexample: on an all-success run the executed order is not the
order the specification words claim, because deploy.py prints the nginx
status report before the pm2 status report, while the claimed canonical
order puts the supervisor status report first. -/
theorem canonical_order_counterexample :
    (runSteps envZero (deployPipeline "main")).executed ≠
      specCanonicalOrder := by
  decide

/-- C4 amended: on a successful run the pipeline executes exactly fetch,
pull, install, audit, supervisor reload, snapshot persist, health check,
proxy config validation, proxy reload, then the proxy status report and
then the supervisor status report, with the 3 second settle delay
attached after the snapshot step. -/
theorem canonical_order (b : String) :
    (runSteps envZero (deployPipeline b)).outcome = .Success ∧
    (runSteps envZero (deployPipeline b)).executed =
      ["fetch", "pull", "install", "audit", "reload_app", "save_snapshot",
       "health_check", "validate_proxy_config", "reload_proxy",
       "proxy_status", "supervisor_status"] ∧
    step_save.postDelay = 3 :=
  ⟨rfl, rfl, rfl⟩

/-- C5: the proxy reload step of deploy.py runs only if the proxy
configuration validation step exited 0; and when validation exits 1 with
every earlier Blocking step succeeding, the run fails at
validate_proxy_config with code 1 and the reload step is never
invoked. -/
theorem validate_before_proxy_reload (env : String → Nat) (b : String) :
    ("reload_proxy" ∈ (runSteps env (deployPipeline b)).executed →
      env "validate_proxy_config" = 0) ∧
    (env "validate_proxy_config" = 1 →
      env "fetch" = 0 → env "pull" = 0 → env "install" = 0 →
      env "reload_app" = 0 → env "save_snapshot" = 0 →
      env "health_check" = 0 →
      (runSteps env (deployPipeline b)).outcome =
        .FailedAt "validate_proxy_config" 1 ∧
      "reload_proxy" ∉ (runSteps env (deployPipeline b)).executed) := by
  constructor
  · intro hmem
    have hdec : deployPipeline b =
        [step_fetch b, step_pull, step_install, step_audit, step_reload_app,
         step_save, step_health, step_validate] ++
        [step_reload_proxy, step_proxy_status, step_supervisor_status] := rfl
    rw [hdec] at hmem
    have hall := runSteps_mem_executed env
      [step_fetch b, step_pull, step_install, step_audit, step_reload_app,
       step_save, step_health, step_validate]
      [step_reload_proxy, step_proxy_status, step_supervisor_status]
      "reload_proxy"
      (by
        show "reload_proxy" ∉
          ["fetch", "pull", "install", "audit", "reload_app",
           "save_snapshot", "health_check", "validate_proxy_config"]
        decide)
      hmem
    exact hall step_validate (by simp) rfl
  · intro h1 hf hp hi hr hs hh
    have hpre : ∀ t ∈ [step_fetch b, step_pull, step_install, step_audit,
        step_reload_app, step_save, step_health],
        t.blocking = true → env t.name = 0 := by
      intro t ht
      simp only [List.mem_cons, List.not_mem_nil, or_false] at ht
      rcases ht with rfl | rfl | rfl | rfl | rfl | rfl | rfl
      · exact fun _ => hf
      · exact fun _ => hp
      · exact fun _ => hi
      · exact fun hb => Bool.noConfusion hb
      · exact fun _ => hr
      · exact fun _ => hs
      · exact fun _ => hh
    have hc : env step_validate.name ≠ 0 := by
      show env "validate_proxy_config" ≠ 0
      rw [h1]
      exact one_ne_zero
    have hrun := runSteps_halt env
      [step_fetch b, step_pull, step_install, step_audit, step_reload_app,
       step_save, step_health] step_validate
      [step_reload_proxy, step_proxy_status, step_supervisor_status]
      hpre rfl hc
    have hdec : deployPipeline b =
        [step_fetch b, step_pull, step_install, step_audit, step_reload_app,
         step_save, step_health] ++ step_validate ::
        [step_reload_proxy, step_proxy_status, step_supervisor_status] := rfl
    rw [hdec, hrun]
    constructor
    · show PipelineOutcome.FailedAt "validate_proxy_config"
        (env "validate_proxy_config") = _
      rw [h1]
    · show "reload_proxy" ∉
        ["fetch", "pull", "install", "audit", "reload_app", "save_snapshot",
         "health_check", "validate_proxy_config"]
      decide

/-- Witness for C5: nginx -t exits 1, every earlier Blocking step exits
0: the run fails at validate_proxy_config with code 1 and the nginx
reload is never invoked. -/
theorem validate_before_proxy_reload_witness :
    (runSteps envValidateFail (deployPipeline "main")).outcome =
      .FailedAt "validate_proxy_config" 1 ∧
    "reload_proxy" ∉
      (runSteps envValidateFail (deployPipeline "main")).executed :=
  (validate_before_proxy_reload envValidateFail "main").2
    rfl rfl rfl rfl rfl rfl rfl

/-- C6: the health-check step carries its fixed retry budget inside the
probe command itself (curl with retry count 3 and retry delay 1); the
runner invokes each pipeline step at most once; and if the probe exits
non-zero after exhausting its retries while every earlier Blocking step
succeeded, the run fails at health_check with that code before the proxy
validation and proxy reload steps are ever invoked. -/
theorem health_check_bounded_retry (env : String → Nat) (b : String) :
    step_health.command =
      .argv ["curl", "-f", "-I", "--retry", "3", "--retry-delay", "1",
             "http://localhost:3000"] ∧
    List.count "health_check" (runSteps env (deployPipeline b)).executed
      ≤ 1 ∧
    (env "health_check" ≠ 0 →
      env "fetch" = 0 → env "pull" = 0 → env "install" = 0 →
      env "reload_app" = 0 → env "save_snapshot" = 0 →
      (runSteps env (deployPipeline b)).outcome =
        .FailedAt "health_check" (env "health_check") ∧
      "validate_proxy_config" ∉
        (runSteps env (deployPipeline b)).executed ∧
      "reload_proxy" ∉ (runSteps env (deployPipeline b)).executed) := by
  refine ⟨rfl, ?_, ?_⟩
  · have hsub := runSteps_executed_sublist env (deployPipeline b)
    have hle := hsub.count_le "health_check"
    have hcount :
        List.count "health_check" ((deployPipeline b).map Step.name) = 1 :=
      rfl
    rw [hcount] at hle
    exact hle
  · intro hcode hf hp hi hr hs
    have hpre : ∀ t ∈ [step_fetch b, step_pull, step_install, step_audit,
        step_reload_app, step_save],
        t.blocking = true → env t.name = 0 := by
      intro t ht
      simp only [List.mem_cons, List.not_mem_nil, or_false] at ht
      rcases ht with rfl | rfl | rfl | rfl | rfl | rfl
      · exact fun _ => hf
      · exact fun _ => hp
      · exact fun _ => hi
      · exact fun hb => Bool.noConfusion hb
      · exact fun _ => hr
      · exact fun _ => hs
    have hrun := runSteps_halt env
      [step_fetch b, step_pull, step_install, step_audit, step_reload_app,
       step_save] step_health
      [step_validate, step_reload_proxy, step_proxy_status,
       step_supervisor_status]
      hpre rfl hcode
    have hdec : deployPipeline b =
        [step_fetch b, step_pull, step_install, step_audit, step_reload_app,
         step_save] ++ step_health ::
        [step_validate, step_reload_proxy, step_proxy_status,
         step_supervisor_status] := rfl
    rw [hdec, hrun]
    refine ⟨rfl, ?_, ?_⟩
    · show "validate_proxy_config" ∉
        ["fetch", "pull", "install", "audit", "reload_app", "save_snapshot",
         "health_check"]
      decide
    · show "reload_proxy" ∉
        ["fetch", "pull", "install", "audit", "reload_app", "save_snapshot",
         "health_check"]
      decide

/-- Witness for C6: curl exits 7 after its retries, every earlier
Blocking step exits 0: the run fails at health_check with code 7 and
neither the proxy validation nor the proxy reload step is invoked. -/
theorem health_check_bounded_retry_witness :
    (runSteps envHealthFail (deployPipeline "main")).outcome =
      .FailedAt "health_check" 7 ∧
    "validate_proxy_config" ∉
      (runSteps envHealthFail (deployPipeline "main")).executed ∧
    "reload_proxy" ∉
      (runSteps envHealthFail (deployPipeline "main")).executed := by
  have h := (health_check_bounded_retry envHealthFail "main").2.2
    (by decide) rfl rfl rfl rfl rfl
  exact ⟨h.1, h.2.1, h.2.2⟩

/-- C7 counterexample: the dependency audit (Advisory, check=False) exits
1, the run completes as a Success, and the runner prints exactly the same
messages as in the all-success run: deploy.py discards the audit result
and prints a fixed completion message, so the non-zero exit is never
logged by the runner. -/
theorem advisory_failure_not_logged :
    (runSteps envAuditOnlyFail (deployPipeline "main")).outcome =
      .Success ∧
    (runSteps envAuditOnlyFail (deployPipeline "main")).logs =
      (runSteps envZero (deployPipeline "main")).logs :=
  ⟨rfl, rfl⟩

/-- C7 amended: a Blocking step failure is always logged — the log ends
with the failure report naming the failing command — while an Advisory
step exit code is never inspected by the runner: the whole trace is
determined by the Blocking exit codes alone. -/
theorem failure_logging (env env2 : String → Nat) (b : String)
    (pre : List Step) (s : Step) (post : List Step) :
    (deployPipeline b = pre ++ s :: post →
      (∀ t ∈ pre, t.blocking = true → env t.name = 0) →
      s.blocking = true → env s.name ≠ 0 →
      (runSteps env (deployPipeline b)).logs =
        stepLogs pre ++ s.preLogs ++ failureReport s.command) ∧
    ((∀ t ∈ deployPipeline b,
        t.blocking = true → env t.name = env2 t.name) →
      runSteps env (deployPipeline b) = runSteps env2 (deployPipeline b)) := by
  constructor
  · intro hdec hpre hb hc
    rw [hdec, runSteps_halt env pre s post hpre hb hc]
  · intro h
    exact runSteps_advisory_irrelevant env env2 _ h

/-- Witness for C7 amended: npm install exits 2 and its failure report is
the tail of the log; and the trace with a failing audit equals the trace
with an all-zero environment. -/
theorem failure_logging_witness :
    (runSteps envInstallFail (deployPipeline "main")).logs =
      stepLogs [step_fetch "main", step_pull] ++ step_install.preLogs ++
        failureReport step_install.command ∧
    runSteps envAuditOnlyFail (deployPipeline "main") =
      runSteps envZero (deployPipeline "main") := by
  constructor
  · exact (failure_logging envInstallFail envInstallFail "main"
      [step_fetch "main", step_pull] step_install
      [step_audit, step_reload_app, step_save, step_health, step_validate,
       step_reload_proxy, step_proxy_status, step_supervisor_status]).1
      rfl (by decide) rfl (by decide)
  · exact (failure_logging envAuditOnlyFail envZero "main"
      [] step_pull []).2 (by decide)

/-- C8 counterexample: deploy-light.py does not invoke its commands as
argument lists: every one of its steps passes a single string to a shell
interpreter, the first being the string git fetch --all run with
shell=True. -/
theorem shell_string_counterexample :
    (deployLightPipeline.all fun s => s.command.isArgv) = false ∧
    (deployLightPipeline.map Step.command).head? =
      some (.shellStr "git fetch --all") :=
  ⟨rfl, rfl⟩

/-- C8 amended: in deploy.py every step command, and the branch lookup
before the pipeline, is an argument-token list; the earlier revisions
(deploy-light.py among them) pass single shell-interpreted strings. -/
theorem deploy_uses_argument_lists (b : String) :
    ((deployPipeline b).all fun s => s.command.isArgv) = true ∧
    branchLookupCmd.isArgv = true :=
  ⟨rfl, rfl⟩

/-- C9: on a Blocking step failure the runner invokes no further external
command — the executed commands are exactly the steps up to and including
the failing one, with no compensating action after it — and the log
reports the failing command and the error banner. -/
theorem blocking_failure_no_rollback (env : String → Nat) (b : String)
    (pre : List Step) (s : Step) (post : List Step)
    (hdec : deployPipeline b = pre ++ s :: post)
    (hpre : ∀ t ∈ pre, t.blocking = true → env t.name = 0)
    (hb : s.blocking = true) (hc : env s.name ≠ 0) :
    (runSteps env (deployPipeline b)).executed =
      pre.map Step.name ++ [s.name] ∧
    ("Command failed: " ++ s.command.render) ∈
      (runSteps env (deployPipeline b)).logs ∧
    "ERROR: One of the commands failed. Deployment stopped." ∈
      (runSteps env (deployPipeline b)).logs := by
  rw [hdec, runSteps_halt env pre s post hpre hb hc]
  refine ⟨rfl, ?_, ?_⟩
  · have hm : ("Command failed: " ++ s.command.render) ∈
        failureReport s.command :=
      List.mem_cons_of_mem _ (List.mem_cons_of_mem _
        (List.mem_cons_self _ _))
    exact List.mem_append.mpr (Or.inr hm)
  · have hm : "ERROR: One of the commands failed. Deployment stopped." ∈
        failureReport s.command :=
      List.mem_cons_of_mem _ (List.mem_cons_self _ _)
    exact List.mem_append.mpr (Or.inr hm)

/-- Witness for C9: the nginx reload exits 5; exactly the nine steps up
to it were invoked, and the log reports the failing command and the
error banner. -/
theorem blocking_failure_no_rollback_witness :
    (runSteps envProxyReloadFail (deployPipeline "main")).executed =
      ["fetch", "pull", "install", "audit", "reload_app", "save_snapshot",
       "health_check", "validate_proxy_config", "reload_proxy"] ∧
    ("Command failed: " ++
        Command.render (.argv ["sudo", "systemctl", "reload", "nginx"])) ∈
      (runSteps envProxyReloadFail (deployPipeline "main")).logs ∧
    "ERROR: One of the commands failed. Deployment stopped." ∈
      (runSteps envProxyReloadFail (deployPipeline "main")).logs := by
  have h := blocking_failure_no_rollback envProxyReloadFail "main"
    [step_fetch "main", step_pull, step_install, step_audit,
     step_reload_app, step_save, step_health, step_validate]
    step_reload_proxy [step_proxy_status, step_supervisor_status]
    rfl (by decide) rfl (by decide)
  exact ⟨h.1, h.2.1, h.2.2⟩

/-- C10: the branch lookup runs with check=True before the try block of
deploy.py; when it exits non-zero the CalledProcessError is uncaught —
the interpreter aborts with exit code 1, no pipeline step runs and no
pipeline trace (in particular no failure report) is produced. -/
theorem branch_lookup_uncaught (env : String → Nat) (b : String)
    (h : env "branch_lookup" ≠ 0) :
    runProgram env b = ⟨1, true, none⟩ := by
  unfold runProgram
  rw [if_pos h]

/-- Witness for C10: the branch lookup exits 128; the program aborts with
an uncaught exception and no pipeline trace. -/
theorem branch_lookup_uncaught_witness :
    runProgram envBranchFail "main" = ⟨1, true, none⟩ :=
  branch_lookup_uncaught envBranchFail "main" (by decide)

end KeySocket
